import Mathlib

/-!
Shallow embedding of the gaclen graphics core (`src/gaclen/src/graphics/`):
the render-pass attachment bookkeeping (`pass/builder.rs`, `pass/graphical_pass.rs`),
the swapchain lifecycle (`swapchain.rs`) and the frame state machine (`frame.rs`).

External vulkano calls (swapchain recreation, image acquisition, command
submission, depth-image creation) are modelled by explicit environment
parameters carrying the outcome the backend would return; `f32` fields of
viewports are modelled by the exact integers the source casts from (the
rounding of `as f32` is irrelevant to every claim and is not modelled).
GPU futures are modelled as a syntax tree of the combinators the source
applies (`join`, `cleanup_finished`, `then_execute`, ...), so that ordering
of work is the sub-term relation.
-/

deriving instance DecidableEq for Except

namespace Gaclen

/-- Format type, following vulkano's `FormatTy` (the categories relevant to
`PossibleDepthFormatDesc::is_depth`). -/
inductive FormatTy
  | Float
  | Uint
  | Unorm
  | Depth
  | Stencil
  | DepthStencil
  deriving DecidableEq, Repr, Inhabited

/-- Image formats touched by the gaclen sources, from vulkano's `Format` enum. -/
inductive Format
  | D16Unorm
  | D32Sfloat
  | D16UnormS8Uint
  | D24UnormS8Uint
  | D32SfloatS8Uint
  | S8Uint
  | R8G8B8A8Unorm
  | B8G8R8A8Unorm
  | R8G8B8A8Srgb
  deriving DecidableEq, Repr, Inhabited

/-- Classification of each modelled format, following vulkano's `Format::ty()`. -/
def Format.ty : Format → FormatTy
  | .D16Unorm => .Depth
  | .D32Sfloat => .Depth
  | .D16UnormS8Uint => .DepthStencil
  | .D24UnormS8Uint => .DepthStencil
  | .D32SfloatS8Uint => .DepthStencil
  | .S8Uint => .Stencil
  | .R8G8B8A8Unorm => .Unorm
  | .B8G8R8A8Unorm => .Unorm
  | .R8G8B8A8Srgb => .Unorm

/-- The depth-format test used by `add_depth_attachment`, from vulkano's
`PossibleDepthFormatDesc for Format`: true exactly for `FormatTy::Depth`. -/
def Format.is_depth (f : Format) : Bool :=
  match f.ty with
  | .Depth => true
  | _ => false

/-- Attachment load operation (vulkano `LoadOp`). -/
inductive LoadOp
  | Load
  | Clear
  | DontCare
  deriving DecidableEq, Repr, Inhabited

/-- Attachment store operation (vulkano `StoreOp`). -/
inductive StoreOp
  | Store
  | DontCare
  deriving DecidableEq, Repr, Inhabited

/-- Image layouts used by the pass bookkeeping (subset of vulkano `ImageLayout`). -/
inductive ImageLayout
  | Undefined
  | General
  | ColorAttachmentOptimal
  | DepthStencilAttachmentOptimal
  | PresentSrc
  deriving DecidableEq, Repr, Inhabited

/-- One attachment of a render pass, from vulkano's `AttachmentDescription`
as constructed by `builder.rs`. -/
structure AttachmentDescription where
  format : Format
  samples : Nat
  load : LoadOp
  store : StoreOp
  stencil_load : LoadOp
  stencil_store : StoreOp
  initial_layout : ImageLayout
  final_layout : ImageLayout
  deriving DecidableEq, Repr, Inhabited

/-- The render-pass description gaclen derives (`graphical_pass.rs`,
`GraphicalRenderPassDescription`): the declared attachments in declaration
order plus the index of the depth attachment, when present.  The source's
typed `AttachmentCollection` only feeds `ATTACHMENT_COUNT` and the stored
descriptions into the subpass derivation, so a plain list is a faithful
carrier. -/
structure GraphicalRenderPassDescription where
  attachments : List AttachmentDescription
  depth_attachment : Option Nat
  deriving DecidableEq, Repr, Inhabited

/-- A single subpass description (vulkano `PassDescription`). -/
structure PassDescription where
  color_attachments : List (Nat × ImageLayout)
  depth_stencil : Option (Nat × ImageLayout)
  input_attachments : List (Nat × ImageLayout)
  resolve_attachments : List (Nat × ImageLayout)
  preserve_attachments : List Nat
  deriving DecidableEq, Repr, Inhabited

/-- Derivation of the single subpass, from `graphical_pass.rs`
`RenderPassDesc::subpass_desc` (lines 116-150): with a depth attachment at
`depth_index` the color list is the indices `0..depth_index` followed by
`depth_index+1..N`; without one it is `0..N`; the depth-stencil reference
mirrors `depth_attachment`. -/
def GraphicalRenderPassDescription.subpass_desc
    (d : GraphicalRenderPassDescription) (num : Nat) : Option PassDescription :=
  if num = 0 then
    let count := d.attachments.length
    let color_attachments :=
      match d.depth_attachment with
      | some depth_index =>
        ((List.range depth_index).map (fun i => (i, ImageLayout.ColorAttachmentOptimal)))
          ++ ((List.range' (depth_index + 1) (count - (depth_index + 1))).map
                (fun i => (i, ImageLayout.ColorAttachmentOptimal)))
      | none =>
        (List.range count).map (fun i => (i, ImageLayout.ColorAttachmentOptimal))
    let depth_stencil :=
      match d.depth_attachment with
      | some index => some (index, ImageLayout.DepthStencilAttachmentOptimal)
      | none => none
    some { color_attachments := color_attachments
           depth_stencil := depth_stencil
           input_attachments := []
           resolve_attachments := []
           preserve_attachments := [] }
  else
    none

/-- Primitive topologies (vulkano `PrimitiveTopology`). -/
inductive PrimitiveTopology
  | PointList
  | LineList
  | LineStrip
  | TriangleList
  | TriangleStrip
  | TriangleFan
  | LineListWithAdjacency
  | LineStripWithAdjacency
  | TriangleListWithAdjacency
  | TriangleStripWithAdjacency
  | PatchList (vertices_per_patch : Nat)
  deriving DecidableEq, Repr, Inhabited

/-- Face-culling modes (vulkano `CullMode`). -/
inductive CullMode
  | None
  | Front
  | Back
  | FrontAndBack
  deriving DecidableEq, Repr, Inhabited

/-- Winding order designating front faces (vulkano `FrontFace`). -/
inductive FrontFace
  | CounterClockwise
  | Clockwise
  deriving DecidableEq, Repr, Inhabited

/-- Polygon rasterization modes (vulkano `PolygonMode`). -/
inductive PolygonMode
  | Fill
  | Line
  | Point
  deriving DecidableEq, Repr, Inhabited

/-- Depth-test comparison operations (vulkano `Compare`). -/
inductive Compare
  | Never
  | Less
  | Equal
  | LessOrEqual
  | Greater
  | NotEqual
  | GreaterOrEqual
  | Always
  deriving DecidableEq, Repr, Inhabited

/-- Rasterization state (the vulkano `Rasterization` fields the builder
touches; `line_width : f32` is modelled by the integer it is set from). -/
structure Rasterization where
  depth_clamp : Bool
  polygon_mode : PolygonMode
  cull_mode : CullMode
  front_face : FrontFace
  line_width : Option Nat
  deriving DecidableEq, Repr, Inhabited

/-- Default rasterization state (vulkano `Rasterization::default()`). -/
def Rasterization.default : Rasterization :=
  { depth_clamp := false
    polygon_mode := .Fill
    cull_mode := .None
    front_face := .CounterClockwise
    line_width := some 1 }

/-- Depth-stencil state (the vulkano `DepthStencil` fields the builder
touches; the stencil and depth-bounds parts, which gaclen leaves at their
defaults, are elided). -/
structure DepthStencil where
  depth_write : Bool
  depth_compare : Compare
  deriving DecidableEq, Repr, Inhabited

/-- Default depth-stencil state (vulkano `DepthStencil::default()`):
no write, test always passes. -/
def DepthStencil.default : DepthStencil :=
  { depth_write := false, depth_compare := .Always }

/-- The dynamic state of `GraphicalPassBuilder` (`builder.rs` lines 21-32).
The typestate parameters `VI, VS, VSS, FS, FSS` (vertex input and the two
shader stages) are compile-time data that none of the modelled operations
inspect, so they are elided. -/
structure GraphicalPassBuilder where
  primitive_topology : PrimitiveTopology
  rasterization : Rasterization
  depth_stencil : DepthStencil
  samples : Nat
  attachments : List AttachmentDescription
  depth_attachment : Option Nat
  deriving DecidableEq, Repr, Inhabited

/-- Error of the attachment-adding operations (`builder.rs` `AttachmentError`). -/
inductive AttachmentError
  | InvalidFormat
  | DepthAttachmentAlreadyExists (index : Nat)
  deriving DecidableEq, Repr, Inhabited

namespace GraphicalPassBuilder

/-- Fresh builder state (`GraphicalPassBuilder::new`). -/
def new : GraphicalPassBuilder :=
  { primitive_topology := .TriangleList
    rasterization := Rasterization.default
    depth_stencil := DepthStencil.default
    samples := 1
    attachments := []
    depth_attachment := none }

/-- Source `primitive_topology` setter. -/
def set_primitive_topology (b : GraphicalPassBuilder) (topology : PrimitiveTopology) :
    GraphicalPassBuilder :=
  { b with primitive_topology := topology }

/-- Source `clamp_depth` setter. -/
def clamp_depth (b : GraphicalPassBuilder) (clamp : Bool) : GraphicalPassBuilder :=
  { b with rasterization := { b.rasterization with depth_clamp := clamp } }

/-- Source `raster_polygon_mode` setter. -/
def raster_polygon_mode (b : GraphicalPassBuilder) (mode : PolygonMode) :
    GraphicalPassBuilder :=
  { b with rasterization := { b.rasterization with polygon_mode := mode } }

/-- Source `cull_mode` setter. -/
def cull_mode (b : GraphicalPassBuilder) (mode : CullMode) : GraphicalPassBuilder :=
  { b with rasterization := { b.rasterization with cull_mode := mode } }

/-- Source `front_face` setter. -/
def front_face (b : GraphicalPassBuilder) (face : FrontFace) : GraphicalPassBuilder :=
  { b with rasterization := { b.rasterization with front_face := face } }

/-- Source `line_width` setter. -/
def line_width (b : GraphicalPassBuilder) (width : Nat) : GraphicalPassBuilder :=
  { b with rasterization := { b.rasterization with line_width := some width } }

/-- Source `depth_write` setter. -/
def depth_write (b : GraphicalPassBuilder) (write : Bool) : GraphicalPassBuilder :=
  { b with depth_stencil := { b.depth_stencil with depth_write := write } }

/-- Source `depth_test_op` setter. -/
def depth_test_op (b : GraphicalPassBuilder) (operation : Compare) : GraphicalPassBuilder :=
  { b with depth_stencil := { b.depth_stencil with depth_compare := operation } }

/-- Source `basic_depth_test`: `depth_write(true)` then `depth_test_less()`. -/
def basic_depth_test (b : GraphicalPassBuilder) : GraphicalPassBuilder :=
  (b.depth_write true).depth_test_op .Less

/-- Source `inverse_depth_test`: `depth_write(true)` then `depth_test_greater()`. -/
def inverse_depth_test (b : GraphicalPassBuilder) : GraphicalPassBuilder :=
  (b.depth_write true).depth_test_op .Greater

/-- Source `add_image_attachment` (`builder.rs` lines 241-253): appends a
color attachment with color-optimal layouts and don't-care stencil ops. -/
def add_image_attachment (b : GraphicalPassBuilder) (format : Format)
    (load : LoadOp) (store : StoreOp) : GraphicalPassBuilder :=
  { b with attachments := b.attachments ++
      [{ format := format
         samples := b.samples
         load := load
         store := store
         stencil_load := .DontCare
         stencil_store := .DontCare
         initial_layout := .ColorAttachmentOptimal
         final_layout := .ColorAttachmentOptimal }] }

/-- Source `add_depth_attachment` (`builder.rs` lines 272-294): rejects
non-depth formats, rejects a second depth attachment reporting the first
one's index, otherwise records the appended attachment's index as the depth
attachment. -/
def add_depth_attachment (b : GraphicalPassBuilder) (format : Format)
    (load : LoadOp) (store : StoreOp) : Except AttachmentError GraphicalPassBuilder :=
  if format.is_depth then
    match b.depth_attachment with
    | some index => .error (.DepthAttachmentAlreadyExists index)
    | none =>
      .ok { b with
        depth_attachment := some b.attachments.length
        attachments := b.attachments ++
          [{ format := format
             samples := b.samples
             load := load
             store := store
             stencil_load := load
             stencil_store := store
             initial_layout := .DepthStencilAttachmentOptimal
             final_layout := .DepthStencilAttachmentOptimal }] }
  else
    .error .InvalidFormat

end GraphicalPassBuilder

/-- Render-pass construction failures (vulkano `RenderPassCreationError`,
the variants relevant here). -/
inductive RenderPassCreationError
  | OomError
  | AttachmentsLimitExceeded
  | ColorAttachmentsLimitExceeded
  deriving DecidableEq, Repr, Inhabited

/-- Pipeline construction failures (vulkano `GraphicsPipelineCreationError`,
a representative subset of the variants). -/
inductive GraphicsPipelineCreationError
  | OomError
  | IncompatibleVertexDefinition
  | IncompatiblePipelineLayout
  | WrongShaderType
  deriving DecidableEq, Repr, Inhabited

/-- Error of `GraphicalPassBuilder::build` (`builder.rs` `BuildError`). -/
inductive BuildError
  | RenderPassCreation (e : RenderPassCreationError)
  | GraphicsPipelineCreation (e : GraphicsPipelineCreationError)
  | NoAttachments
  deriving DecidableEq, Repr, Inhabited

/-- A built pass (`graphical_pass.rs` `GraphicalPass`): the vulkano render
pass and pipeline are opaque backend objects, modelled by handles; the
render pass carries the description it was built from. -/
structure GraphicalPass where
  render_pass : Nat
  description : GraphicalRenderPassDescription
  pipeline : Nat
  deriving DecidableEq, Repr, Inhabited

/-- Backend outcomes of the two fallible construction steps inside
`GraphicalPassBuilder::build`: vulkano's render-pass construction
(`description.build_render_pass(..)`) and pipeline construction
(`builder.build(..)`). -/
structure BuildEnv where
  render_pass_result : Except RenderPassCreationError Nat
  pipeline_result : Except GraphicsPipelineCreationError Nat
  deriving Repr, Inhabited

/-- Source `GraphicalPassBuilder::build` (`builder.rs` lines 329-382):
an empty attachment list is rejected up front; then the render pass is
built from the accumulated description, then the pipeline; each backend
failure is converted into a `BuildError` value. -/
def GraphicalPassBuilder.build (b : GraphicalPassBuilder) (env : BuildEnv) :
    Except BuildError GraphicalPass :=
  if b.attachments.isEmpty then
    .error .NoAttachments
  else
    match env.render_pass_result with
    | .error e => .error (.RenderPassCreation e)
    | .ok render_pass =>
      match env.pipeline_result with
      | .error e => .error (.GraphicsPipelineCreation e)
      | .ok pipeline =>
        .ok { render_pass := render_pass
              description := { attachments := b.attachments
                               depth_attachment := b.depth_attachment }
              pipeline := pipeline }

/-- A viewport (vulkano `Viewport`).  The source stores `f32` values; they
are modelled by the integers they are cast from (`origin` is always
`[0.0, 0.0]` in gaclen, `dimensions` comes from `u32` window dimensions,
`depth_range` is either `0.0..1.0` or `1.0..0.0`). -/
structure Viewport where
  origin : Nat × Nat
  dimensions : Nat × Nat
  depth_range : Nat × Nat
  deriving DecidableEq, Repr, Inhabited

/-- Recorder dynamic state (the `viewports` field of vulkano's
`DynamicState`, the only one gaclen touches). -/
structure DynamicState where
  viewports : Option (List Viewport)
  deriving DecidableEq, Repr, Inhabited

/-- Default dynamic state (vulkano `DynamicState::default()`): no viewports. -/
def DynamicState.default : DynamicState := { viewports := none }

/-- A depth image (vulkano `AttachmentImage`), carrying the dimensions and
format it was created with (`AttachmentImage::transient(device, dims, fmt)`). -/
structure AttachmentImage where
  dims : Nat × Nat
  format : Format
  deriving DecidableEq, Repr, Inhabited

/-- The backend swapchain handle (vulkano `Swapchain`): an identity plus the
negotiated image count and current dimensions.  `recreate_with_dimensions`
reuses every creation parameter except the dimensions, so recreation
preserves the negotiated image count. -/
structure VlkSwapchain where
  id : Nat
  image_count : Nat
  dimensions : Nat × Nat
  deriving DecidableEq, Repr, Inhabited

/-- Swapchain recreation failures (vulkano `SwapchainCreationError`,
the variants relevant here). -/
inductive VlkSwapchainCreationError
  | OomError
  | SurfaceLost
  | UnsupportedDimensions
  deriving DecidableEq, Repr, Inhabited

/-- Image creation failures (vulkano `ImageCreationError`,
the variants relevant here). -/
inductive ImageCreationError
  | AllocError
  | UnsupportedUsage
  deriving DecidableEq, Repr, Inhabited

/-- Error during resizing (`graphics.rs` `ResizeError`). -/
inductive ResizeError
  | Swapchain (e : VlkSwapchainCreationError)
  | Image (e : ImageCreationError)
  | UnsizedWindow
  deriving DecidableEq, Repr, Inhabited

/-- Gaclen's swapchain (`swapchain.rs` `Swapchain`): backend handle, color
image ring (handles), matching depth images, configuration and viewport
state. -/
structure Swapchain where
  device : Nat
  swapchain : VlkSwapchain
  images : List Nat
  depths : List AttachmentImage
  depth_format : Format
  inverse_depth : Bool
  dynamic_state : DynamicState
  default_viewport : Viewport
  deriving DecidableEq, Repr, Inhabited

namespace Swapchain

/-- Source `Swapchain::resize_viewport` (`swapchain.rs` lines 151-170):
sets the default viewport to the given dimensions with the depth range
selected by `inverse_depth`, and writes it into slot 0 of the dynamic
state's viewport list (pushing when the list is absent or empty). -/
def resize_viewport (s : Swapchain) (dimensions : Nat × Nat) : Swapchain :=
  let default_viewport : Viewport :=
    { origin := (0, 0)
      dimensions := dimensions
      depth_range := if s.inverse_depth then (1, 0) else (0, 1) }
  let dynamic_state : DynamicState :=
    match s.dynamic_state.viewports with
    | some vec =>
      match vec with
      | [] => { viewports := some [default_viewport] }
      | _ :: rest => { viewports := some (default_viewport :: rest) }
    | none => { viewports := some [default_viewport] }
  { s with default_viewport := default_viewport, dynamic_state := dynamic_state }

/-- Source `Swapchain::inverse_depth` (`swapchain.rs` lines 106-113): flips
the flag and refreshes the viewport at the current depth-image dimensions
(the source indexes `depths[0]`; an empty ring is modelled by `(0, 0)`). -/
def set_inverse_depth (s : Swapchain) (inverse : Bool) : Swapchain :=
  let s := { s with inverse_depth := inverse }
  let dimensions := ((s.depths.head?).map (fun d => d.dims)).getD (0, 0)
  s.resize_viewport dimensions

end Swapchain

/-- Backend outcomes consumed by one `Swapchain::resize` call:
whether `recreate_with_dimensions` fails, the identity of the recreated
swapchain and its images when it succeeds, and whether the i-th
`AttachmentImage::transient` call fails. -/
structure ResizeEnv where
  recreate_fails : Option VlkSwapchainCreationError
  new_id : Nat
  new_image_seed : Nat
  depth_fail_at : Nat → Option ImageCreationError

/-- Backend `recreate_with_dimensions` on the swapchain handle: on success
the handle is replaced (same negotiated image count, new dimensions)
together with a matching list of fresh image handles. -/
def VlkSwapchain.recreate_with_dimensions (sc : VlkSwapchain) (env : ResizeEnv)
    (dimensions : Nat × Nat) :
    Except VlkSwapchainCreationError (VlkSwapchain × List Nat) :=
  match env.recreate_fails with
  | some e => .error e
  | none =>
    .ok ({ id := env.new_id, image_count := sc.image_count, dimensions := dimensions },
         (List.range sc.image_count).map (fun i => env.new_image_seed + i))

/-- The depth-image creation loop of `Swapchain::resize` and
`Swapchain::new`: `count` calls to `AttachmentImage::transient(device,
[w, h], depth_format)` starting at index `i`, aborting at the first
backend failure. -/
def createDepthImages (fail : Nat → Option ImageCreationError)
    (dimensions : Nat × Nat) (format : Format) :
    Nat → Nat → Except ImageCreationError (List AttachmentImage)
  | _, 0 => .ok []
  | i, n + 1 =>
    match fail i with
    | some e => .error e
    | none =>
      match createDepthImages fail dimensions format (i + 1) n with
      | .error e => .error e
      | .ok rest => .ok ({ dims := dimensions, format := format } :: rest)

namespace Swapchain

/-- Source `Swapchain::resize` (`swapchain.rs` lines 116-134).  The receiver
is `&mut self`, so the result is the final state paired with the outcome:
first the viewport is refreshed, then the backend swapchain and its image
ring are recreated in place, then one matching depth image per color image
is created; the `?` on each fallible step returns with the mutations made
so far kept. -/
def resize (s : Swapchain) (dimensions : Nat × Nat) (env : ResizeEnv) :
    Swapchain × Option ResizeError :=
  let s := s.resize_viewport dimensions
  match s.swapchain.recreate_with_dimensions env dimensions with
  | .error e => (s, some (.Swapchain e))
  | .ok (swapchain, images) =>
    let s := { s with swapchain := swapchain, images := images }
    match createDepthImages env.depth_fail_at dimensions s.depth_format 0 s.images.length with
    | .error e => (s, some (.Image e))
    | .ok depths => ({ s with depths := depths }, none)

end Swapchain

/-- GPU futures as the syntax tree of the combinators the source applies
(vulkano `GpuFuture` values are opaque; what the code determines is how
they are chained).  `cleanup` marks that `cleanup_finished()` — the
drop-completed-work pass — was run on a future; it prunes finished
resources without changing the ordering the future represents. -/
inductive GpuFuture
  | now (device : Nat)
  | acquireSignal (id : Nat)
  | cleanup (f : GpuFuture)
  | join (a b : GpuFuture)
  | thenExecute (f : GpuFuture) (queue : Nat) (commands : List Nat)
  | thenSwapchainPresent (f : GpuFuture) (queue : Nat) (swapchain : Nat) (index : Nat)
  | thenSignalFenceAndFlush (f : GpuFuture)
  deriving DecidableEq, Repr, Inhabited

namespace GpuFuture

/-- Sub-term test on future trees: `g.contains f` holds when `f` is `g`
itself or occurs under `g`'s combinators, i.e. the work `f` represents is
scheduled no later than `g`. -/
def contains (g f : GpuFuture) : Bool :=
  if g = f then true
  else
    match g with
    | .now _ => false
    | .acquireSignal _ => false
    | .cleanup a => a.contains f
    | .join a b => a.contains f || b.contains f
    | .thenExecute a _ _ => a.contains f
    | .thenSwapchainPresent a _ _ _ => a.contains f
    | .thenSignalFenceAndFlush a => a.contains f

/-- Strict ordering on future trees: `g` is ordered strictly after `f` when
`f` occurs strictly below `g`. -/
def orderedStrictlyAfter (g f : GpuFuture) : Prop :=
  g.contains f = true ∧ g ≠ f

end GpuFuture

/-- Queue-acquisition failures (vulkano `AcquireError`, the variants
relevant here). -/
inductive AcquireError
  | Timeout
  | SurfaceLost
  | DeviceLost
  | OutOfDate
  | OomError
  deriving DecidableEq, Repr, Inhabited

/-- Command-buffer execution failures (vulkano `CommandBufferExecError`). -/
inductive CommandBufferExecError
  | AccessError
  | OneTimeSubmitAlreadySubmitted
  | ExclusiveAlreadyInUse
  deriving DecidableEq, Repr, Inhabited

/-- Present/flush failures (vulkano `FlushError`, the variants relevant
here; `OutOfDate` is the recoverable "surface out of date" code). -/
inductive FlushError
  | AccessError
  | OomError
  | DeviceLost
  | SurfaceLost
  | OutOfDate
  | FullscreenExclusiveLost
  | Timeout
  deriving DecidableEq, Repr, Inhabited

/-- Error finishing the frame (`frame.rs` `FrameFinishError`). -/
inductive FrameFinishError
  | Flush (e : FlushError)
  | Commands (e : CommandBufferExecError)
  deriving DecidableEq, Repr, Inhabited

/-- Gaclen's device (`device.rs` `Device`): the logical device and queues
are opaque backend objects, modelled by handles; `before_frame` is the
single outstanding in-flight-work future slot.  The depth format is kept
because the builder's swapchain helpers read it; the remaining fields
(backend swapchain caches of the older device-owned-swapchain API) do not
participate in any claim and are elided. -/
structure Device where
  device : Nat
  graphics_queue : Nat
  transfer_queue : Nat
  compute_queue : Nat
  swapchain_depth_format : Format
  before_frame : Option GpuFuture
  deriving DecidableEq, Repr, Inhabited

/-- Source `Device::logical_device`. -/
def Device.logical_device (d : Device) : Nat := d.device

/-- A frame in the process of being drawn (`frame.rs` `Frame`): the
consumed device, the backend swapchain handle captured at begin, the
accumulated future, recorder dynamic state, the open command recorder
(opaque recorded commands) and the acquired image index. -/
structure Frame where
  device : Device
  swapchain : VlkSwapchain
  time : GpuFuture
  dynamic_state : DynamicState
  commands : List Nat
  swapchain_index : Nat
  deriving DecidableEq, Repr, Inhabited

/-- Successful outcome of `vulkano::swapchain::acquire_next_image`: the
acquired image index, the suboptimal flag, and the image's ready-signal
future. -/
structure AcquireOk where
  index : Nat
  should_recreate : Bool
  acquire_future : GpuFuture
  deriving DecidableEq, Repr, Inhabited

/-- Source `Frame::begin` (`frame.rs` lines 76-108), with the backend
acquire outcome passed in.  On acquire failure the untouched device is
returned with the error.  On success the pending future is taken out of
the device: when present, `cleanup_finished()` is run on it and the
acquire signal is joined after it; when absent, a fresh `now` future is
joined with the acquire signal.  A fresh one-time-submit command recorder
is opened (modelled as the empty record). -/
def Frame.begin (device : Device) (swapchain : Swapchain)
    (acquire : Except AcquireError AcquireOk) :
    Except (Device × AcquireError) Frame :=
  let used_swapchain := swapchain.swapchain
  match acquire with
  | .error err => .error (device, err)
  | .ok acquired =>
    let time : GpuFuture :=
      match device.before_frame with
      | some t => .join (.cleanup t) acquired.acquire_future
      | none => .join (.now device.logical_device) acquired.acquire_future
    let commands : List Nat := []
    .ok { device := { device with before_frame := none }
          swapchain := used_swapchain
          dynamic_state := swapchain.dynamic_state
          time := time
          commands := commands
          swapchain_index := acquired.index }

/-- The future `Frame::finish` chains on success: execution of the recorded
commands after the accumulated future, then presentation of the acquired
image, then a signalled fence and flush. -/
def Frame.after_frame_future (frame : Frame) : GpuFuture :=
  .thenSignalFenceAndFlush
    (.thenSwapchainPresent
      (.thenExecute frame.time frame.device.graphics_queue frame.commands)
      frame.device.graphics_queue frame.swapchain.id frame.swapchain_index)

/-- Source `Frame::finish` (`frame.rs` lines 146-162), with the backend
outcomes of `then_execute` and of the present-and-flush passed in.
`commands.build()` panics rather than erring in the source and is not
fallible here.  An execution error returns the device with
`FrameFinishError::Commands`; a flush error returns it with
`FrameFinishError::Flush`; on success the device comes back with the
after-present future stored in its pending slot. -/
def Frame.finish (frame : Frame)
    (exec_result : Option CommandBufferExecError)
    (flush_result : Option FlushError) :
    Except (Device × FrameFinishError) Device :=
  match exec_result with
  | some err => .error (frame.device, .Commands err)
  | none =>
    match flush_result with
    | some err => .error (frame.device, .Flush err)
    | none => .ok { frame.device with before_frame := some frame.after_frame_future }

namespace Swapchain

/-- Source `Swapchain::get_color_image_for` (`swapchain.rs` lines 136-139):
indexes the color ring at the frame's acquired index (the source indexes
unconditionally; the lookup is modelled as optional and validity is the
claim). -/
def get_color_image_for (s : Swapchain) (frame : Frame) : Option Nat :=
  s.images[frame.swapchain_index]?

/-- Source `Swapchain::get_depth_image_for` (`swapchain.rs` lines 141-144):
indexes the depth ring at the frame's acquired index. -/
def get_depth_image_for (s : Swapchain) (frame : Frame) : Option AttachmentImage :=
  s.depths[frame.swapchain_index]?

end Swapchain

/-- The public state-changing swapchain operations that can run between a
frame's begin and a later image lookup. -/
inductive SwapchainOp
  | resize (dimensions : Nat × Nat) (env : ResizeEnv)
  | setInverseDepth (inverse : Bool)

/-- Application of one public operation to a swapchain (errors of `resize`
leave the mutated-so-far state in place, as the source's `&mut self`
receiver does). -/
def Swapchain.applyOp (s : Swapchain) (op : SwapchainOp) : Swapchain :=
  match op with
  | .resize dimensions env => (s.resize dimensions env).1
  | .setInverseDepth inverse => s.set_inverse_depth inverse

/-- Application of a sequence of public operations. -/
def Swapchain.applyOps (s : Swapchain) (ops : List SwapchainOp) : Swapchain :=
  ops.foldl Swapchain.applyOp s

/-- The count invariant of a swapchain: both image rings match the backend
swapchain's negotiated image count. -/
def Swapchain.imageCountInv (s : Swapchain) : Prop :=
  s.images.length = s.swapchain.image_count ∧ s.depths.length = s.swapchain.image_count

/-- The attachment description `add_depth_attachment` appends for a given
format, load and store (stencil ops mirror the depth ops, layouts are
depth-stencil-optimal). -/
def depthAttachmentDesc (b : GraphicalPassBuilder) (format : Format)
    (load : LoadOp) (store : StoreOp) : AttachmentDescription :=
  { format := format
    samples := b.samples
    load := load
    store := store
    stencil_load := load
    stencil_store := store
    initial_layout := .DepthStencilAttachmentOptimal
    final_layout := .DepthStencilAttachmentOptimal }

/-- A builder that already holds a depth attachment, at index 0, obtained
through the public operation itself. -/
def builderWithDepth : GraphicalPassBuilder :=
  match GraphicalPassBuilder.new.add_depth_attachment .D16Unorm .Clear .DontCare with
  | .ok b => b
  | .error _ => GraphicalPassBuilder.new

/-- The implicit builder invariant of C9: a recorded depth-attachment index
is in bounds and points at an attachment with a depth format. -/
def depthInvariant (b : GraphicalPassBuilder) : Bool :=
  match b.depth_attachment with
  | none => true
  | some i =>
    decide (i < b.attachments.length) && (b.attachments.getD i default).format.is_depth

/-- A concrete three-attachment description with its depth attachment at
index 1, used to instantiate theorems. -/
def sampleDescription : GraphicalRenderPassDescription :=
  { attachments :=
      [{ format := .B8G8R8A8Unorm, samples := 1, load := .Clear, store := .Store
         stencil_load := .DontCare, stencil_store := .DontCare
         initial_layout := .ColorAttachmentOptimal, final_layout := .ColorAttachmentOptimal },
       { format := .D16Unorm, samples := 1, load := .Clear, store := .DontCare
         stencil_load := .Clear, stencil_store := .DontCare
         initial_layout := .DepthStencilAttachmentOptimal
         final_layout := .DepthStencilAttachmentOptimal },
       { format := .R8G8B8A8Unorm, samples := 1, load := .Load, store := .Store
         stencil_load := .DontCare, stencil_store := .DontCare
         initial_layout := .ColorAttachmentOptimal, final_layout := .ColorAttachmentOptimal }]
    depth_attachment := some 1 }

/-- A concrete device with pending in-flight work, used to instantiate
theorems. -/
def sampleDevice : Device :=
  { device := 0
    graphics_queue := 1
    transfer_queue := 2
    compute_queue := 3
    swapchain_depth_format := .D16Unorm
    before_frame := some (.now 0) }

/-- A concrete two-image swapchain, used to instantiate theorems. -/
def sampleSwapchain : Swapchain :=
  { device := 0
    swapchain := { id := 0, image_count := 2, dimensions := (640, 480) }
    images := [10, 11]
    depths := [{ dims := (640, 480), format := .D16Unorm },
               { dims := (640, 480), format := .D16Unorm }]
    depth_format := .D16Unorm
    inverse_depth := false
    dynamic_state := DynamicState.default
    default_viewport := { origin := (0, 0), dimensions := (640, 480), depth_range := (0, 1) } }

/-- A concrete successful acquire outcome (image 0), used to instantiate
theorems. -/
def sampleAcquire : AcquireOk :=
  { index := 0, should_recreate := false, acquire_future := .acquireSignal 7 }

/-- The frame obtained by beginning a frame on the sample device and
swapchain, used to instantiate theorems. -/
def sampleFrame : Frame :=
  match Frame.begin sampleDevice sampleSwapchain (.ok sampleAcquire) with
  | .ok f => f
  | .error _ => default

/-- A build environment in which both backend constructions succeed, used
to instantiate theorems. -/
def sampleBuildEnv : BuildEnv :=
  { render_pass_result := .ok 4, pipeline_result := .ok 5 }

/-- A resize environment in which every backend step succeeds, used to
instantiate theorems. -/
def resizeEnvOk : ResizeEnv :=
  { recreate_fails := none
    new_id := 1
    new_image_seed := 100
    depth_fail_at := fun _ => none }

/-- A resize environment in which swapchain recreation fails, used to
instantiate theorems. -/
def resizeEnvRecreateFails : ResizeEnv :=
  { recreate_fails := some .UnsupportedDimensions
    new_id := 1
    new_image_seed := 100
    depth_fail_at := fun _ => none }

/-! Theorems. -/

/-- Splitting `[0..N)` at an index `k < N`: filtering `k` out keeps
`[0..k)` followed by `[k+1..N)`. -/
theorem range_filter_ne (N k : Nat) (h : k < N) :
    (List.range N).filter (fun i => decide (i ≠ k)) =
      List.range k ++ List.range' (k + 1) (N - (k + 1)) := by
  have hsplit : List.range N = List.range' 0 k ++ List.range' k (N - k) := by
    have happ := List.range'_append_1 0 k (N - k)
    rw [Nat.zero_add, Nat.sub_add_cancel (Nat.le_of_lt h)] at happ
    rw [List.range_eq_range']
    exact happ.symm
  have hfix1 : (List.range' 0 k).filter (fun i => decide (i ≠ k)) = List.range' 0 k := by
    apply List.filter_eq_self.mpr
    intro a ha
    rw [List.mem_range'_1] at ha
    simp only [decide_eq_true_eq]
    omega
  have hfix2 : (List.range' k (N - k)).filter (fun i => decide (i ≠ k)) =
      List.range' (k + 1) (N - (k + 1)) := by
    rw [show N - k = (N - (k + 1)) + 1 by omega, List.range'_succ, List.filter_cons]
    have hks : (decide (k ≠ k)) = false := by simp
    rw [hks]
    simp only [Bool.false_eq_true, if_false]
    apply List.filter_eq_self.mpr
    intro a ha
    rw [List.mem_range'_1] at ha
    simp only [decide_eq_true_eq]
    omega
  rw [hsplit, List.filter_append, hfix1, hfix2, ← List.range_eq_range']

/-- C4: for an attachment list of `N` attachments with the depth attachment
recorded at index `k < N`, the derived subpass's color-attachment index
list is `[0..k)` followed by `[k+1..N)` — equivalently `[0..N)` with `k`
filtered out — in declaration order with color-optimal layouts, and the
depth-stencil reference is `(k, DepthStencilAttachmentOptimal)`; with no
depth attachment the color list is all of `[0..N)` and the depth-stencil
reference is absent. -/
theorem subpass_desc_color_and_depth (d : GraphicalRenderPassDescription) :
    (∀ k, d.depth_attachment = some k → k < d.attachments.length →
      ∃ p, d.subpass_desc 0 = some p ∧
        p.color_attachments.map Prod.fst =
          List.range k ++ List.range' (k + 1) (d.attachments.length - (k + 1)) ∧
        p.color_attachments.map Prod.fst =
          (List.range d.attachments.length).filter (fun i => decide (i ≠ k)) ∧
        (∀ c ∈ p.color_attachments, c.2 = ImageLayout.ColorAttachmentOptimal) ∧
        p.depth_stencil = some (k, ImageLayout.DepthStencilAttachmentOptimal)) ∧
    (d.depth_attachment = none →
      ∃ p, d.subpass_desc 0 = some p ∧
        p.color_attachments.map Prod.fst = List.range d.attachments.length ∧
        (∀ c ∈ p.color_attachments, c.2 = ImageLayout.ColorAttachmentOptimal) ∧
        p.depth_stencil = none) := by
  constructor
  · intro k hk hlt
    refine ⟨{ color_attachments :=
                (List.range k).map (fun i => (i, ImageLayout.ColorAttachmentOptimal))
                  ++ (List.range' (k + 1) (d.attachments.length - (k + 1))).map
                      (fun i => (i, ImageLayout.ColorAttachmentOptimal)),
              depth_stencil := some (k, ImageLayout.DepthStencilAttachmentOptimal),
              input_attachments := [],
              resolve_attachments := [],
              preserve_attachments := [] }, ?_, ?_, ?_, ?_, ?_⟩
    · simp [GraphicalRenderPassDescription.subpass_desc, hk]
    · simp [List.map_append, List.map_map, Function.comp_def]
    · rw [range_filter_ne d.attachments.length k hlt]
      simp [List.map_append, List.map_map, Function.comp_def]
    · intro c hc
      simp only [List.mem_append, List.mem_map] at hc
      rcases hc with ⟨i, _, rfl⟩ | ⟨i, _, rfl⟩ <;> rfl
    · rfl
  · intro hk
    refine ⟨{ color_attachments :=
                (List.range d.attachments.length).map
                  (fun i => (i, ImageLayout.ColorAttachmentOptimal)),
              depth_stencil := none,
              input_attachments := [],
              resolve_attachments := [],
              preserve_attachments := [] }, ?_, ?_, ?_, ?_⟩
    · simp [GraphicalRenderPassDescription.subpass_desc, hk]
    · simp [List.map_map, Function.comp_def]
    · intro c hc
      simp only [List.mem_map] at hc
      rcases hc with ⟨i, _, rfl⟩
      rfl
    · rfl

/-- C5 counterexample: on a builder whose depth attachment is already
recorded (at index 0), calling `add_depth_attachment` with a non-depth
format fails with `InvalidFormat`, not with
`DepthAttachmentAlreadyExists 0` as the claim's first clause requires:
the format check runs before the existing-depth check. -/
theorem add_depth_attachment_counterexample :
    builderWithDepth.depth_attachment = some 0 ∧
    builderWithDepth.add_depth_attachment .R8G8B8A8Unorm .Clear .Store =
      .error .InvalidFormat ∧
    builderWithDepth.add_depth_attachment .R8G8B8A8Unorm .Clear .Store ≠
      .error (.DepthAttachmentAlreadyExists 0) := by
  decide

/-- C5 (amended): `add_depth_attachment` fails with `InvalidFormat`
whenever the supplied format is not a depth format (regardless of any
recorded depth attachment); for a depth format it fails with
`DepthAttachmentAlreadyExists` carrying the existing depth attachment's
index whenever one is already recorded, and otherwise succeeds, recording
the new attachment's index — the previous attachment count — as the depth
attachment. -/
theorem add_depth_attachment_cases (b : GraphicalPassBuilder) (format : Format)
    (load : LoadOp) (store : StoreOp) :
    (format.is_depth = false →
      b.add_depth_attachment format load store = .error .InvalidFormat) ∧
    (∀ i, format.is_depth = true → b.depth_attachment = some i →
      b.add_depth_attachment format load store =
        .error (.DepthAttachmentAlreadyExists i)) ∧
    (format.is_depth = true → b.depth_attachment = none →
      b.add_depth_attachment format load store =
        .ok { b with
              depth_attachment := some b.attachments.length
              attachments := b.attachments ++ [depthAttachmentDesc b format load store] }) := by
  refine ⟨?_, ?_, ?_⟩
  · intro hfmt
    simp [GraphicalPassBuilder.add_depth_attachment, hfmt]
  · intro i hfmt hda
    simp [GraphicalPassBuilder.add_depth_attachment, hfmt, hda]
  · intro hfmt hda
    simp [GraphicalPassBuilder.add_depth_attachment, hfmt, hda, depthAttachmentDesc]

/-- Witness for C5's amended theorem on a fresh builder and `D16Unorm`. -/
theorem add_depth_attachment_cases_witness :
    Format.is_depth .D16Unorm = true ∧
    GraphicalPassBuilder.new.depth_attachment = none ∧
    GraphicalPassBuilder.new.add_depth_attachment .D16Unorm .Clear .Store =
      .ok { GraphicalPassBuilder.new with
            depth_attachment := some GraphicalPassBuilder.new.attachments.length
            attachments := GraphicalPassBuilder.new.attachments ++
              [depthAttachmentDesc GraphicalPassBuilder.new .D16Unorm .Clear .Store] } :=
  ⟨rfl, rfl,
    (add_depth_attachment_cases GraphicalPassBuilder.new .D16Unorm .Clear .Store).2.2 rfl rfl⟩

/-- C9: every builder operation preserves the depth invariant; the plain
setters and `add_image_attachment` never change the depth index, and
`add_depth_attachment` only sets it to the index of the depth-format
attachment it appends. -/
theorem builder_ops_preserve_depth_invariant (b : GraphicalPassBuilder)
    (format : Format) (load : LoadOp) (store : StoreOp)
    (hinv : depthInvariant b = true) :
    depthInvariant (b.add_image_attachment format load store) = true ∧
    (b.add_image_attachment format load store).depth_attachment = b.depth_attachment ∧
    (∀ b', b.add_depth_attachment format load store = .ok b' →
      depthInvariant b' = true ∧ b'.depth_attachment = some b.attachments.length) ∧
    (∀ t, depthInvariant (b.set_primitive_topology t) = true) ∧
    (∀ c, depthInvariant (b.clamp_depth c) = true) ∧
    (∀ m, depthInvariant (b.raster_polygon_mode m) = true) ∧
    (∀ m, depthInvariant (b.cull_mode m) = true) ∧
    (∀ f, depthInvariant (b.front_face f) = true) ∧
    (∀ w, depthInvariant (b.line_width w) = true) ∧
    (∀ w, depthInvariant (b.depth_write w) = true) ∧
    (∀ op, depthInvariant (b.depth_test_op op) = true) ∧
    depthInvariant b.basic_depth_test = true ∧
    depthInvariant b.inverse_depth_test = true := by
  have himg : depthInvariant (b.add_image_attachment format load store) = true := by
    unfold depthInvariant GraphicalPassBuilder.add_image_attachment
    unfold depthInvariant at hinv
    cases hda : b.depth_attachment with
    | none => simp [hda]
    | some i =>
      rw [hda] at hinv
      simp only [Bool.and_eq_true, decide_eq_true_eq] at hinv ⊢
      refine ⟨by simp; omega, ?_⟩
      rw [List.getD_eq_getElem?_getD, List.getElem?_append_left hinv.1,
        ← List.getD_eq_getElem?_getD]
      exact hinv.2
  refine ⟨himg, rfl, ?_, ?_, ?_, ?_, ?_, ?_, ?_, ?_, ?_, ?_, ?_⟩
  · intro b' hok
    cases hfmt : format.is_depth with
    | false =>
      rw [GraphicalPassBuilder.add_depth_attachment, hfmt] at hok
      simp at hok
    | true =>
      cases hda : b.depth_attachment with
      | some i =>
        rw [GraphicalPassBuilder.add_depth_attachment, hfmt] at hok
        simp only [if_true] at hok
        rw [hda] at hok
        simp at hok
      | none =>
        rw [GraphicalPassBuilder.add_depth_attachment, hfmt] at hok
        simp only [if_true] at hok
        rw [hda] at hok
        simp only [Except.ok.injEq] at hok
        subst hok
        constructor
        · unfold depthInvariant
          simp only [Bool.and_eq_true, decide_eq_true_eq]
          refine ⟨by simp, ?_⟩
          rw [List.getD_eq_getElem?_getD, List.getElem?_concat_length]
          simpa using hfmt
        · rfl
  all_goals
    first
    | intro x
      simpa [depthInvariant, GraphicalPassBuilder.set_primitive_topology,
        GraphicalPassBuilder.clamp_depth, GraphicalPassBuilder.raster_polygon_mode,
        GraphicalPassBuilder.cull_mode, GraphicalPassBuilder.front_face,
        GraphicalPassBuilder.line_width, GraphicalPassBuilder.depth_write,
        GraphicalPassBuilder.depth_test_op] using hinv
    | simpa [depthInvariant, GraphicalPassBuilder.basic_depth_test,
        GraphicalPassBuilder.inverse_depth_test, GraphicalPassBuilder.depth_write,
        GraphicalPassBuilder.depth_test_op] using hinv

/-- Witness for C9 on a builder that already holds a depth attachment. -/
theorem builder_ops_preserve_depth_invariant_witness :
    depthInvariant builderWithDepth = true ∧
    depthInvariant (builderWithDepth.add_image_attachment .B8G8R8A8Unorm .Clear .Store) = true :=
  ⟨by decide,
    (builder_ops_preserve_depth_invariant builderWithDepth .B8G8R8A8Unorm .Clear .Store
      (by decide)).1⟩

/-- C7: `build` rejects an empty attachment list with `NoAttachments` no
matter what the backend would answer; each backend construction failure
comes back as the corresponding `BuildError` value; and a `GraphicalPass`
is produced exactly when the attachment list is non-empty and both backend
constructions succeed. -/
theorem build_error_conditions (b : GraphicalPassBuilder) (env : BuildEnv) :
    (b.attachments = [] → b.build env = .error .NoAttachments) ∧
    (∀ e, b.attachments ≠ [] → env.render_pass_result = .error e →
      b.build env = .error (.RenderPassCreation e)) ∧
    (∀ rp e, b.attachments ≠ [] → env.render_pass_result = .ok rp →
      env.pipeline_result = .error e →
      b.build env = .error (.GraphicsPipelineCreation e)) ∧
    (∀ p, b.build env = .ok p →
      b.attachments ≠ [] ∧
      env.render_pass_result = .ok p.render_pass ∧
      env.pipeline_result = .ok p.pipeline ∧
      p.description =
        { attachments := b.attachments, depth_attachment := b.depth_attachment }) := by
  refine ⟨?_, ?_, ?_, ?_⟩
  · intro hempty
    simp [GraphicalPassBuilder.build, hempty]
  · intro e hne hrp
    simp [GraphicalPassBuilder.build, List.isEmpty_iff, hne, hrp]
  · intro rp e hne hrp hpl
    simp [GraphicalPassBuilder.build, List.isEmpty_iff, hne, hrp, hpl]
  · intro p hok
    unfold GraphicalPassBuilder.build at hok
    by_cases hne : b.attachments = []
    · simp [hne] at hok
    · rw [if_neg (by simpa [List.isEmpty_iff] using hne)] at hok
      cases hrp : env.render_pass_result with
      | error e => rw [hrp] at hok; simp at hok
      | ok rp =>
        rw [hrp] at hok
        cases hpl : env.pipeline_result with
        | error e => rw [hpl] at hok; simp at hok
        | ok pl =>
          rw [hpl] at hok
          simp only [Except.ok.injEq] at hok
          subst hok
          exact ⟨hne, rfl, rfl, rfl⟩

/-- Witness for C7: a fresh builder has no attachments, so `build` reports
`NoAttachments` even in an all-successful backend environment. -/
theorem build_error_conditions_witness :
    GraphicalPassBuilder.new.build sampleBuildEnv = .error .NoAttachments :=
  (build_error_conditions GraphicalPassBuilder.new sampleBuildEnv).1 rfl

/-- C2: when image acquisition fails, `Frame::begin` returns the device
value unchanged — pending future, queues and all other fields — paired
with the acquire error. -/
theorem begin_frame_error_returns_device_unchanged
    (device : Device) (swapchain : Swapchain) (err : AcquireError) :
    Frame.begin device swapchain (.error err) = .error (device, err) := rfl

/-- Containment is reflexive: every future tree contains itself. -/
theorem GpuFuture.contains_self (g : GpuFuture) : g.contains g = true := by
  unfold GpuFuture.contains
  simp

/-- A join contains whatever its left arm contains. -/
theorem GpuFuture.contains_join_left (a b f : GpuFuture) (h : a.contains f = true) :
    (GpuFuture.join a b).contains f = true := by
  unfold GpuFuture.contains
  split
  · rfl
  · simp [h]

/-- A join contains whatever its right arm contains. -/
theorem GpuFuture.contains_join_right (a b f : GpuFuture) (h : b.contains f = true) :
    (GpuFuture.join a b).contains f = true := by
  unfold GpuFuture.contains
  split
  · rfl
  · simp [h]

/-- A cleaned-up future contains the future it was cleaned from. -/
theorem GpuFuture.contains_cleanup_self (t : GpuFuture) :
    (GpuFuture.cleanup t).contains t = true := by
  unfold GpuFuture.contains
  split
  · rfl
  · exact GpuFuture.contains_self t

/-- A join is a strictly larger tree than its right arm. -/
theorem GpuFuture.join_ne_right (a b : GpuFuture) : GpuFuture.join a b ≠ b := by
  intro h
  have hs := congrArg sizeOf h
  simp only [GpuFuture.join.sizeOf_spec] at hs
  omega

/-- A join whose left arm is a cleanup of `t` is a strictly larger tree
than `t`. -/
theorem GpuFuture.join_cleanup_ne (t x : GpuFuture) :
    GpuFuture.join (.cleanup t) x ≠ t := by
  intro h
  have hs := congrArg sizeOf h
  simp only [GpuFuture.join.sizeOf_spec, GpuFuture.cleanup.sizeOf_spec] at hs
  omega

/-- C1: a successful `Frame::begin` on a device with a pending future runs
the drop-completed-work pass on that prior future and stores the join of
the (cleaned) prior future with the acquired image's ready-signal, strictly
ordered after both; with no pending future it stores the join of a fresh
`now` future with the acquire signal; either way the opened command
recorder is fresh and the device's pending slot has been taken. -/
theorem begin_frame_chains_after_prior_and_acquire
    (device : Device) (swapchain : Swapchain) (a : AcquireOk) :
    (∀ prior, device.before_frame = some prior →
      ∃ frame, Frame.begin device swapchain (.ok a) = .ok frame ∧
        frame.time = .join (.cleanup prior) a.acquire_future ∧
        frame.time.orderedStrictlyAfter prior ∧
        frame.time.orderedStrictlyAfter a.acquire_future ∧
        frame.commands = [] ∧
        frame.device.before_frame = none) ∧
    (device.before_frame = none →
      ∃ frame, Frame.begin device swapchain (.ok a) = .ok frame ∧
        frame.time = .join (.now device.logical_device) a.acquire_future ∧
        frame.time.orderedStrictlyAfter a.acquire_future ∧
        frame.commands = [] ∧
        frame.device.before_frame = none) := by
  constructor
  · intro prior hbf
    refine ⟨{ device := { device with before_frame := none },
              swapchain := swapchain.swapchain,
              dynamic_state := swapchain.dynamic_state,
              time := .join (.cleanup prior) a.acquire_future,
              commands := [],
              swapchain_index := a.index }, ?_, rfl, ?_, ?_, rfl, rfl⟩
    · simp [Frame.begin, hbf]
    · exact ⟨GpuFuture.contains_join_left _ _ _ (GpuFuture.contains_cleanup_self prior),
        GpuFuture.join_cleanup_ne prior a.acquire_future⟩
    · exact ⟨GpuFuture.contains_join_right _ _ _ (GpuFuture.contains_self _),
        GpuFuture.join_ne_right _ _⟩
  · intro hbf
    refine ⟨{ device := { device with before_frame := none },
              swapchain := swapchain.swapchain,
              dynamic_state := swapchain.dynamic_state,
              time := .join (.now device.logical_device) a.acquire_future,
              commands := [],
              swapchain_index := a.index }, ?_, rfl, ?_, rfl, rfl⟩
    · simp [Frame.begin, hbf]
    · exact ⟨GpuFuture.contains_join_right _ _ _ (GpuFuture.contains_self _),
        GpuFuture.join_ne_right _ _⟩

/-- Witness for C1 on the sample device (pending future `now 0`) and the
sample acquire outcome. -/
theorem begin_frame_chains_after_prior_and_acquire_witness :
    ∃ frame, Frame.begin sampleDevice sampleSwapchain (.ok sampleAcquire) = .ok frame ∧
      frame.time = .join (.cleanup (.now 0)) sampleAcquire.acquire_future ∧
      frame.time.orderedStrictlyAfter (.now 0) ∧
      frame.time.orderedStrictlyAfter sampleAcquire.acquire_future ∧
      frame.commands = [] ∧
      frame.device.before_frame = none :=
  (begin_frame_chains_after_prior_and_acquire sampleDevice sampleSwapchain
    sampleAcquire).1 (.now 0) rfl

/-- C3: `finish` has exactly two failure kinds — command-buffer execution
failure (`Commands`) and present/flush failure (`Flush`) — and every
failure returns ownership of the device alongside the error; on success it
returns a device whose pending-future slot holds the new after-present
future. -/
theorem finish_frame_outcomes (frame : Frame)
    (exec_result : Option CommandBufferExecError) (flush_result : Option FlushError) :
    (∀ e, exec_result = some e →
      frame.finish exec_result flush_result = .error (frame.device, .Commands e)) ∧
    (∀ e, exec_result = none → flush_result = some e →
      frame.finish exec_result flush_result = .error (frame.device, .Flush e)) ∧
    (exec_result = none → flush_result = none →
      frame.finish exec_result flush_result =
        .ok { frame.device with before_frame := some frame.after_frame_future }) ∧
    (∀ d e, frame.finish exec_result flush_result = .error (d, e) → d = frame.device) ∧
    (∀ e : FrameFinishError, (∃ c, e = .Commands c) ∨ (∃ f, e = .Flush f)) := by
  refine ⟨?_, ?_, ?_, ?_, ?_⟩
  · intro e he
    simp [Frame.finish, he]
  · intro e he hf
    simp [Frame.finish, he, hf]
  · intro he hf
    simp [Frame.finish, he, hf]
  · intro d e h
    unfold Frame.finish at h
    cases hex : exec_result with
    | some c => rw [hex] at h; simp at h; exact h.1.symm
    | none =>
      rw [hex] at h
      cases hfl : flush_result with
      | some f => rw [hfl] at h; simp at h; exact h.1.symm
      | none => rw [hfl] at h; simp at h
  · intro e
    cases e with
    | Flush f => exact Or.inr ⟨f, rfl⟩
    | Commands c => exact Or.inl ⟨c, rfl⟩

/-- Witness for C3 on the sample frame with an all-successful backend. -/
theorem finish_frame_outcomes_witness :
    sampleFrame.finish none none =
      .ok { sampleFrame.device with before_frame := some sampleFrame.after_frame_future } :=
  (finish_frame_outcomes sampleFrame none none).2.2.1 rfl rfl

/-- Specification of the depth-image creation loop on success: it produces
exactly one image per requested slot and every produced image carries the
requested dimensions and format. -/
theorem createDepthImages_ok (fail : Nat → Option ImageCreationError)
    (dims : Nat × Nat) (fmt : Format) :
    ∀ n i l, createDepthImages fail dims fmt i n = .ok l →
      l.length = n ∧ ∀ img ∈ l, img.dims = dims ∧ img.format = fmt := by
  intro n
  induction n with
  | zero =>
    intro i l h
    unfold createDepthImages at h
    simp only [Except.ok.injEq] at h
    subst h
    simp
  | succ m ih =>
    intro i l h
    unfold createDepthImages at h
    cases hf : fail i with
    | some e => rw [hf] at h; simp at h
    | none =>
      rw [hf] at h
      cases hr : createDepthImages fail dims fmt (i + 1) m with
      | error e => rw [hr] at h; simp at h
      | ok rest =>
        rw [hr] at h
        simp only [Except.ok.injEq] at h
        subst h
        obtain ⟨hlen, hmem⟩ := ih (i + 1) rest hr
        refine ⟨by simp [hlen], ?_⟩
        intro img hm
        rcases List.mem_cons.mp hm with rfl | hm
        · exact ⟨rfl, rfl⟩
        · exact hmem img hm

/-- Specification of `resize_viewport`: the default viewport becomes the
given dimensions with the depth range selected by the inverse-depth flag,
it is installed at slot 0 of the dynamic state, and the swapchain handle
and both image rings are untouched. -/
theorem resize_viewport_spec (s : Swapchain) (dims : Nat × Nat) :
    (s.resize_viewport dims).default_viewport =
      { origin := (0, 0), dimensions := dims,
        depth_range := if s.inverse_depth then (1, 0) else (0, 1) } ∧
    (∃ rest, (s.resize_viewport dims).dynamic_state.viewports =
      some ((s.resize_viewport dims).default_viewport :: rest)) ∧
    (s.resize_viewport dims).swapchain = s.swapchain ∧
    (s.resize_viewport dims).images = s.images ∧
    (s.resize_viewport dims).depths = s.depths := by
  refine ⟨rfl, ?_, rfl, rfl, rfl⟩
  unfold Swapchain.resize_viewport
  cases hv : s.dynamic_state.viewports with
  | none => exact ⟨[], rfl⟩
  | some vec =>
    cases vec with
    | nil => exact ⟨[], rfl⟩
    | cons hd tl => exact ⟨tl, rfl⟩

/-- C6: when `resize` succeeds, the color-image ring and the depth-image
ring have equal length, and every depth image has exactly the requested
dimensions. -/
theorem resize_ok_depths_match (s : Swapchain) (dimensions : Nat × Nat)
    (env : ResizeEnv) (s' : Swapchain)
    (h : s.resize dimensions env = (s', none)) :
    s'.images.length = s'.depths.length ∧
    ∀ d ∈ s'.depths, d.dims = dimensions := by
  unfold Swapchain.resize VlkSwapchain.recreate_with_dimensions at h
  cases hrf : env.recreate_fails with
  | some e => rw [hrf] at h; simp at h
  | none =>
    rw [hrf] at h
    simp only at h
    cases hd : createDepthImages env.depth_fail_at dimensions
        (s.resize_viewport dimensions).depth_format 0
        ((List.range (s.resize_viewport dimensions).swapchain.image_count).map
          (fun i => env.new_image_seed + i)).length with
    | error e => rw [hd] at h; simp at h
    | ok depths =>
      rw [hd] at h
      simp only [Prod.mk.injEq] at h
      obtain ⟨hs', -⟩ := h
      subst hs'
      obtain ⟨hlen, hmem⟩ := createDepthImages_ok env.depth_fail_at dimensions
        (s.resize_viewport dimensions).depth_format _ 0 depths hd
      refine ⟨by simp [hlen], ?_⟩
      intro d hdm
      exact (hmem d hdm).1

/-- Witness for C6: resizing the sample swapchain to `(800, 600)` in an
all-successful environment. -/
theorem resize_ok_depths_match_witness :
    ((sampleSwapchain.resize (800, 600) resizeEnvOk).1.images.length =
        (sampleSwapchain.resize (800, 600) resizeEnvOk).1.depths.length ∧
      ∀ d ∈ (sampleSwapchain.resize (800, 600) resizeEnvOk).1.depths,
        d.dims = (800, 600)) :=
  resize_ok_depths_match sampleSwapchain (800, 600) resizeEnvOk
    (sampleSwapchain.resize (800, 600) resizeEnvOk).1 (by decide)

/-- C10: whenever `resize` fails, the returned state already carries the
default viewport (and dynamic-state slot 0) at the requested dimensions —
the viewport update is not rolled back — while the depth ring is still the
prior one, and on a recreation failure the color ring and backend handle
are still the prior ones as well. -/
theorem resize_error_viewport_not_rolled_back (s : Swapchain)
    (dimensions : Nat × Nat) (env : ResizeEnv) (s' : Swapchain) (e : ResizeError)
    (h : s.resize dimensions env = (s', some e)) :
    s'.default_viewport =
      { origin := (0, 0), dimensions := dimensions,
        depth_range := if s.inverse_depth then (1, 0) else (0, 1) } ∧
    (∃ rest, s'.dynamic_state.viewports = some (s'.default_viewport :: rest)) ∧
    s'.depths = s.depths ∧
    (∀ er, e = .Swapchain er → s'.images = s.images ∧ s'.swapchain = s.swapchain) := by
  obtain ⟨hvp, hdyn, hsc, himg, hdep⟩ := resize_viewport_spec s dimensions
  unfold Swapchain.resize VlkSwapchain.recreate_with_dimensions at h
  cases hrf : env.recreate_fails with
  | some er =>
    rw [hrf] at h
    simp only [Prod.mk.injEq] at h
    obtain ⟨hs', -⟩ := h
    subst hs'
    exact ⟨hvp, hdyn, hdep, fun _ _ => ⟨himg, hsc⟩⟩
  | none =>
    rw [hrf] at h
    simp only at h
    cases hd : createDepthImages env.depth_fail_at dimensions
        (s.resize_viewport dimensions).depth_format 0
        ((List.range (s.resize_viewport dimensions).swapchain.image_count).map
          (fun i => env.new_image_seed + i)).length with
    | error er =>
      rw [hd] at h
      simp only [Prod.mk.injEq] at h
      obtain ⟨hs', he⟩ := h
      subst hs'
      refine ⟨hvp, hdyn, hdep, ?_⟩
      intro er' her
      have hei : ResizeError.Image er = e := Option.some.inj he
      rw [← hei] at her
      simp at her
    | ok depths =>
      rw [hd] at h
      simp at h

/-- Witness for C10: resizing the sample swapchain to `(800, 600)` in an
environment whose swapchain recreation fails. -/
theorem resize_error_viewport_not_rolled_back_witness :
    ((sampleSwapchain.resize (800, 600) resizeEnvRecreateFails).1.default_viewport =
        { origin := (0, 0), dimensions := (800, 600), depth_range := (0, 1) } ∧
      (∃ rest,
        (sampleSwapchain.resize (800, 600) resizeEnvRecreateFails).1.dynamic_state.viewports =
          some ((sampleSwapchain.resize (800, 600) resizeEnvRecreateFails).1.default_viewport
            :: rest)) ∧
      (sampleSwapchain.resize (800, 600) resizeEnvRecreateFails).1.depths =
        sampleSwapchain.depths ∧
      (sampleSwapchain.resize (800, 600) resizeEnvRecreateFails).1.images =
        sampleSwapchain.images) := by
  have hmain := resize_error_viewport_not_rolled_back sampleSwapchain (800, 600)
    resizeEnvRecreateFails (sampleSwapchain.resize (800, 600) resizeEnvRecreateFails).1
    (.Swapchain .UnsupportedDimensions) (by decide)
  exact ⟨hmain.1, hmain.2.1, hmain.2.2.1,
    (hmain.2.2.2 .UnsupportedDimensions rfl).1⟩

/-- One resize call preserves the backend image count (recreation reuses
the negotiated count) and the count invariant, on the success path and on
both failure paths. -/
theorem resize_preserves_counts (s : Swapchain) (dims : Nat × Nat) (env : ResizeEnv) :
    (s.resize dims env).1.swapchain.image_count = s.swapchain.image_count ∧
    (s.imageCountInv → (s.resize dims env).1.imageCountInv) := by
  unfold Swapchain.resize VlkSwapchain.recreate_with_dimensions
  cases hrf : env.recreate_fails with
  | some e => exact ⟨rfl, fun h => h⟩
  | none =>
    simp only
    cases hd : createDepthImages env.depth_fail_at dims
        (s.resize_viewport dims).depth_format 0
        ((List.range (s.resize_viewport dims).swapchain.image_count).map
          (fun i => env.new_image_seed + i)).length with
    | error e =>
      simp only
      refine ⟨rfl, ?_⟩
      intro h
      obtain ⟨h1, h2⟩ := h
      exact ⟨by simp, h2⟩
    | ok depths =>
      simp only
      refine ⟨rfl, ?_⟩
      intro _
      obtain ⟨hlen, -⟩ := createDepthImages_ok env.depth_fail_at dims
        (s.resize_viewport dims).depth_format _ 0 depths hd
      constructor
      · simp
      · rw [hlen]
        simp

/-- One public swapchain operation preserves the backend image count and
the count invariant. -/
theorem applyOp_preserves_counts (s : Swapchain) (op : SwapchainOp) :
    (s.applyOp op).swapchain.image_count = s.swapchain.image_count ∧
    (s.imageCountInv → (s.applyOp op).imageCountInv) := by
  cases op with
  | resize dims env => exact resize_preserves_counts s dims env
  | setInverseDepth inverse => exact ⟨rfl, fun h => h⟩

/-- Any sequence of public swapchain operations preserves the backend image
count and the count invariant. -/
theorem applyOps_preserves_counts (ops : List SwapchainOp) (s : Swapchain) :
    (s.applyOps ops).swapchain.image_count = s.swapchain.image_count ∧
    (s.imageCountInv → (s.applyOps ops).imageCountInv) := by
  induction ops generalizing s with
  | nil => exact ⟨rfl, fun h => h⟩
  | cons op rest ih =>
    obtain ⟨hopc, hopi⟩ := applyOp_preserves_counts s op
    obtain ⟨ihc, ihi⟩ := ih (s.applyOp op)
    exact ⟨ihc.trans hopc, fun h => ihi (hopi h)⟩

/-- C8: for a frame begun on a swapchain satisfying the count invariant
with a validly acquired index, after any sequence of public swapchain
operations — including resizes performed after the frame was begun — the
frame's acquired index is in bounds for both image rings, so
`get_color_image_for` and `get_depth_image_for` find their image. -/
theorem get_image_for_frame_in_bounds (device : Device) (s0 : Swapchain)
    (a : AcquireOk) (frame : Frame) (ops : List SwapchainOp)
    (hinv : s0.imageCountInv)
    (hidx : a.index < s0.swapchain.image_count)
    (hbegin : Frame.begin device s0 (.ok a) = .ok frame) :
    frame.swapchain_index < (s0.applyOps ops).images.length ∧
    frame.swapchain_index < (s0.applyOps ops).depths.length ∧
    ((s0.applyOps ops).get_color_image_for frame).isSome = true ∧
    ((s0.applyOps ops).get_depth_image_for frame).isSome = true := by
  have hfi : frame.swapchain_index = a.index := by
    unfold Frame.begin at hbegin
    simp only [Except.ok.injEq] at hbegin
    rw [← hbegin]
  obtain ⟨hcount, hinvs⟩ := applyOps_preserves_counts ops s0
  obtain ⟨hcimg, hcdep⟩ := hinvs hinv
  have himg : frame.swapchain_index < (s0.applyOps ops).images.length := by
    rw [hfi, hcimg, hcount]
    exact hidx
  have hdep : frame.swapchain_index < (s0.applyOps ops).depths.length := by
    rw [hfi, hcdep, hcount]
    exact hidx
  refine ⟨himg, hdep, ?_, ?_⟩
  · unfold Swapchain.get_color_image_for
    simp [List.getElem?_eq_getElem himg]
  · unfold Swapchain.get_depth_image_for
    simp [List.getElem?_eq_getElem hdep]

/-- Witness for C8: the sample frame's index stays valid across a resize of
the sample swapchain performed after the frame was begun. -/
theorem get_image_for_frame_in_bounds_witness :
    sampleFrame.swapchain_index <
      (sampleSwapchain.applyOps [.resize (800, 600) resizeEnvOk]).images.length ∧
    sampleFrame.swapchain_index <
      (sampleSwapchain.applyOps [.resize (800, 600) resizeEnvOk]).depths.length ∧
    ((sampleSwapchain.applyOps [.resize (800, 600) resizeEnvOk]).get_color_image_for
      sampleFrame).isSome = true ∧
    ((sampleSwapchain.applyOps [.resize (800, 600) resizeEnvOk]).get_depth_image_for
      sampleFrame).isSome = true :=
  get_image_for_frame_in_bounds sampleDevice sampleSwapchain sampleAcquire sampleFrame
    [.resize (800, 600) resizeEnvOk] ⟨rfl, rfl⟩ (by decide) rfl

/-- Witness for C4 at `sampleDescription`: depth index 1 of 3 attachments. -/
theorem subpass_desc_color_and_depth_witness :
    ∃ p, sampleDescription.subpass_desc 0 = some p ∧
      p.color_attachments.map Prod.fst =
        List.range 1 ++ List.range' 2 (sampleDescription.attachments.length - 2) ∧
      p.color_attachments.map Prod.fst =
        (List.range sampleDescription.attachments.length).filter (fun i => decide (i ≠ 1)) ∧
      (∀ c ∈ p.color_attachments, c.2 = ImageLayout.ColorAttachmentOptimal) ∧
      p.depth_stencil = some (1, ImageLayout.DepthStencilAttachmentOptimal) :=
  (subpass_desc_color_and_depth sampleDescription).1 1 (by decide) (by decide)

end Gaclen
